import Mathlib

/-!
Shallow embedding of the semantic-search component in
src/embeddings/src/lib.rs (a Spin HTTP component in Rust).

Modelling conventions:
* Rust String and str become Lean String.
* f32 vectors are embedded as List ℚ, holding the exact real values; f32
  rounding is not modelled (none of the properties below depends on it),
  but the exceptional value NaN is modelled explicitly, because the
  source's sort comparator unwraps a partial comparison of f32 values.
* The external sqlite table paragraphs(reference, text, embedding) is a
  List Row; INSERT appends a row, DELETE WHERE reference = ? removes every
  matching row, SELECT * yields the rows in order (the statements the
  source issues, given their standard SQL semantics; the table has no
  uniqueness constraint, matching the source's schema-free INSERT).
* The two external capabilities (summarization, embedding) are parameters:
  summarize_text's outcome is a function String → Option String
  (mirroring `summarize_text(&e.text).ok()`), and the batch embedding
  call's outcome is an Except value supplied by the caller, since the
  source treats both as opaque blocking calls.
* A Rust process panic (expect / unwrap) is distinguished from a typed
  error by the Outcome type below.
-/

namespace Smartbeeding

/-- A stored blob either decodes (via serde_json) to a float vector, or its
bytes fail to decode; the source only ever writes blobs of the first kind. -/
inductive BlobData where
  | decoded : List ℚ → BlobData
  | malformed : BlobData
deriving DecidableEq

/-- One row of the paragraphs table: columns reference, text, embedding. -/
structure Row where
  reference : String
  text : String
  embedding : BlobData
deriving DecidableEq

/-- Rust struct Paragraph { reference, text }. -/
structure Paragraph where
  reference : String
  text : String
deriving DecidableEq

/-- Rust struct ParagraphRecord { embedding, reference, text }. -/
structure ParagraphRecord where
  embedding : List ℚ
  reference : String
  text : String
deriving DecidableEq

/-- Rust struct Crawl (API input, dropped by Page::to_paragraph). -/
structure Crawl where
  loaded_url : String
  loaded_time : String
  referrer_url : String
  depth : Int
deriving DecidableEq

/-- Rust struct Metadata (API input, dropped by Page::to_paragraph). -/
structure Metadata where
  canonical_url : String
  title : String
  description : String
  author : Option String
  keywords : String
  language_code : String
deriving DecidableEq

/-- Rust struct Page (API input structure). -/
structure Page where
  url : String
  crawl : Crawl
  metadata : Metadata
  screenshot_url : Option String
  text : String
deriving DecidableEq

/-- Page::to_paragraph: projects url to reference and keeps text. -/
def Page.to_paragraph (p : Page) : Paragraph :=
  { reference := p.url, text := p.text }

/-- A float32 similarity value: either NaN, or the exact real value
`q / √d` (with `0 < d`), written `Flt.val q d`. cosine_similarity divides
the dot product by √(‖a‖²·‖b‖²), so every finite value it produces has this
shape; carrying the pair (numerator, radicand) keeps the model computable
and exact. -/
inductive Flt where
  | nan : Flt
  | val : ℚ → ℚ → Flt
deriving DecidableEq

/-- The dot product loop of cosine_similarity:
`vec1.iter().zip(vec2.iter()).map(|(x, y)| x * y).sum()`. Rust's zip stops
at the shorter vector, so does List.zip. -/
def dot_product (vec1 vec2 : List ℚ) : ℚ :=
  ((vec1.zip vec2).map fun p => p.1 * p.2).sum

/-- The squared norm loop of cosine_similarity:
`vec.iter().map(|x| x * x).sum()` (the source then takes .sqrt()). -/
def norm_sq (vec : List ℚ) : ℚ :=
  (vec.map fun x => x * x).sum

/-- fn cosine_similarity(vec1, vec2) = dot / (norm1 * norm2), where
norm_i = √(norm_sq vec_i). Over the exact values, a norm is zero iff the
vector is all zeros, in which case the dot product is zero too and the
division is 0/0 = NaN; otherwise the value is dot / √(norm_sq1 · norm_sq2),
represented exactly as `Flt.val`. There is no length check: the dot product
silently truncates to the shorter vector while each norm uses its full
vector. -/
def cosine_similarity (vec1 vec2 : List ℚ) : Flt :=
  if norm_sq vec1 * norm_sq vec2 = 0 then Flt.nan
  else Flt.val (dot_product vec1 vec2) (norm_sq vec1 * norm_sq vec2)

/-- Exact three-way comparison on ℚ. -/
def cmpQ (x y : ℚ) : Ordering :=
  if x < y then Ordering.lt else if x = y then Ordering.eq else Ordering.gt

/-- Compares the exact reals q1/√d1 and q2/√d2 (for d1, d2 > 0), by sign
and then by cross-multiplied squares. -/
def cmp_sqrt_ratio (q1 d1 q2 d2 : ℚ) : Ordering :=
  if q1 < 0 then
    if q2 < 0 then cmpQ (q2 * q2 * d1) (q1 * q1 * d2) else Ordering.lt
  else
    if q2 < 0 then Ordering.gt
    else cmpQ (q1 * q1 * d2) (q2 * q2 * d1)

/-- f32::partial_cmp: None whenever either operand is NaN, otherwise the
ordering of the two values. -/
def partial_cmp : Flt → Flt → Option Ordering
  | Flt.val q1 d1, Flt.val q2 d2 => some (cmp_sqrt_ratio q1 d1 q2 d2)
  | _, _ => none

/-- Rust struct SimilarityResult { paragraph, similarity }. -/
structure SimilarityResult where
  paragraph : Paragraph
  similarity : Flt
deriving DecidableEq

/-- Rust struct SimilarityResultSet { sentence, results }. -/
structure SimilarityResultSet where
  sentence : String
  results : List SimilarityResult
deriving DecidableEq

/-- Result of running a handler: a value, a typed error propagated with
`?`, or a process panic raised by expect/unwrap. -/
inductive Outcome (α : Type) where
  | ok : α → Outcome α
  | err : String → Outcome α
  | panicked : String → Outcome α
deriving DecidableEq

/-- Inserts `a` into an already sorted list, calling the possibly-failing
comparator the way `slice::sort_by` with an unwrapping closure does: the
whole sort panics (returns none) as soon as the comparator is handed a pair
it cannot order. -/
def insert_sorted {α : Type} (cmp : α → α → Option Ordering) (a : α) :
    List α → Option (List α)
  | [] => some [a]
  | b :: l =>
    match cmp a b with
    | none => none
    | some Ordering.gt => (insert_sorted cmp a l).map fun l2 => b :: l2
    | some _ => some (a :: b :: l)

/-- `results.sort_by(cmp)` where cmp may fail (unwrap of a None
partial_cmp): modelled as insertion sort. Like Rust's stable merge sort,
it orders by cmp when every comparison succeeds, and it panics (none)
whenever the list has at least two elements one of which is incomparable,
since every element takes part in at least one comparison. -/
def sort_by_unwrap {α : Type} (cmp : α → α → Option Ordering) :
    List α → Option (List α)
  | [] => some []
  | a :: l =>
    match sort_by_unwrap cmp l with
    | none => none
    | some l2 => insert_sorted cmp a l2

/-- impl TryFrom of sqlite::Row for ParagraphRecord: decoding the embedding
blob fails with an error for a malformed blob (serde_json::from_value of
the unparseable bytes' default Null value); reference and text are read as
strings. -/
def row_try_into_record (row : Row) : Except String ParagraphRecord :=
  match row.embedding with
  | BlobData.decoded v =>
    Except.ok { embedding := v, reference := row.reference, text := row.text }
  | BlobData.malformed => Except.error "invalid type: null, expected a sequence"

/-- impl TryFrom of sqlite::Row for Paragraph: reads reference and text. -/
def row_try_into_paragraph (row : Row) : Except String Paragraph :=
  Except.ok { reference := row.reference, text := row.text }

/-- `iterator.map(f).collect::<Result<Vec<_>>>()`: applies f to each
element in order and stops at the first failure, returning it. -/
def collect_results {α β : Type} (f : α → Except String β) :
    List α → Except String (List β)
  | [] => Except.ok []
  | a :: rest =>
    match f a with
    | Except.error e => Except.error e
    | Except.ok b =>
      match collect_results f rest with
      | Except.error e => Except.error e
      | Except.ok bs => Except.ok (b :: bs)

/-- fn get_compare_set: SELECT * FROM paragraphs, then
`rows().map(try_into).collect::<Result<Vec<ParagraphRecord>>>()`; collect
into Result stops at the first row whose conversion fails. -/
def get_compare_set (rows : List Row) : Except String (List ParagraphRecord) :=
  collect_results row_try_into_record rows

/-- The no-query branch of fn get_paragraphs (list_all): SELECT * FROM
paragraphs, collect rows into Paragraph with the same short-circuiting
collect. -/
def get_paragraphs_all (rows : List Row) : Except String (List Paragraph) :=
  collect_results row_try_into_paragraph rows

/-- fn get_similar_paragraphs. `embed_result` is the outcome of the
external call generate_embeddings(AllMiniLmL6V2, [sentence]). Steps in
source order: (1) get_compare_set, propagated with `?`; (2) on embedding
success take `er.embeddings.get(0).expect(...)`, which PANICS when the
provider returned zero vectors, and on embedding failure return the error;
(3) score every record with cosine_similarity(p.embedding, query);
(4) `results.sort_by(|a, b| b.similarity.partial_cmp(&a.similarity).unwrap())`,
which panics when some similarity is NaN. -/
def get_similar_paragraphs (sentence : String)
    (embed_result : Except String (List (List ℚ)))
    (rows : List Row) : Outcome SimilarityResultSet :=
  match get_compare_set rows with
  | Except.error e => Outcome.err e
  | Except.ok paragraphs =>
    match embed_result with
    | Except.error e => Outcome.err e
    | Except.ok embeddings =>
      match embeddings.head? with
      | none => Outcome.panicked "Embeddings results should always be populated"
      | some embedded_sentence =>
        let results := paragraphs.map fun p =>
          { paragraph := { reference := p.reference, text := p.text }
            similarity := cosine_similarity p.embedding embedded_sentence
            : SimilarityResult }
        match sort_by_unwrap
            (fun a b => partial_cmp b.similarity a.similarity) results with
        | none => Outcome.panicked "called Option::unwrap() on a None value"
        | some sorted =>
          Outcome.ok { sentence := sentence, results := sorted }

/-- The insert loop of fn store_paragraph_records, one INSERT per element of
`paragraphs.iter().zip(embedding_result.embeddings)`; the i-th statement's
success is `insert_ok i`, and its Result is discarded (`let _ =`), so a
failed INSERT skips only its own row and the loop continues. -/
def insert_rows (insert_ok : Nat → Bool) :
    Nat → List (Paragraph × List ℚ) → List Row
  | _, [] => []
  | i, (p, e) :: rest =>
    if insert_ok i then
      { reference := p.reference, text := p.text,
        embedding := BlobData.decoded e : Row } :: insert_rows insert_ok (i + 1) rest
    else insert_rows insert_ok (i + 1) rest

/-- fn store_paragraph_records(paragraphs, embedding_result): zips the FULL
paragraphs list with the embeddings, inserts each pair (blob = the JSON
encoding of the vector, which round-trips exactly), and returns
Ok(paragraphs.len()) regardless of the insert outcomes. The connection is
assumed to open and JSON-encoding a vector never fails (serde_json::to_vec
of a numeric array is infallible). -/
def store_paragraph_records (insert_ok : Nat → Bool)
    (paragraphs : List Paragraph) (embeddings : List (List ℚ))
    (store : List Row) : List Row × Nat :=
  (store ++ insert_rows insert_ok 0 (paragraphs.zip embeddings),
   paragraphs.length)

/-- fn create_paragraphs_records (body already deserialized to pages):
(1) project pages to paragraphs; (2) summaries =
`paragraphs.iter().filter_map(|e| summarize_text(&e.text).ok())` — passages
whose summarization fails are silently dropped from the embedding batch;
(3) batch-embed the surviving summaries, a failure propagating with `?`
before anything is stored; (4) store_paragraph_records on the FULL
paragraph list and the embeddings of the survivors. Returns the final
store and the reported count (or the embedding error). -/
def create_paragraphs_records (summarize : String → Option String)
    (embed : List String → Except String (List (List ℚ)))
    (insert_ok : Nat → Bool)
    (pages : List Page) (store : List Row) :
    List Row × Except String Nat :=
  let paragraphs := pages.map Page.to_paragraph
  let summaries := paragraphs.filterMap fun e => summarize e.text
  match embed summaries with
  | Except.error e => (store, Except.error e)
  | Except.ok embeddings =>
    let res := store_paragraph_records insert_ok paragraphs embeddings store
    (res.1, Except.ok res.2)

/-- HTTP statuses the handlers produce. -/
inductive Status where
  | ok : Status
  | notFound : Status
deriving DecidableEq

/-- fn delete_paragraph_record: with a reference path parameter it runs
DELETE FROM paragraphs WHERE reference = (?), DISCARDS the statement's
Result (`let _ =`), and answers 200 OK unconditionally — nothing in the
response says whether a matching row existed; without the parameter it
answers 404. -/
def delete_paragraph_record (reference_param : Option String)
    (store : List Row) : List Row × Status :=
  match reference_param with
  | some reference =>
    (store.filter fun row => row.reference ≠ reference, Status.ok)
  | none => (store, Status.notFound)

/-! Concrete inputs used by the theorems below. -/

/-- A Page with the given url and text and empty crawl metadata. -/
def mk_page (url text : String) : Page :=
  { url := url
    crawl := { loaded_url := "", loaded_time := "", referrer_url := "", depth := 0 }
    metadata := { canonical_url := "", title := "", description := "",
                  author := none, keywords := "", language_code := "" }
    screenshot_url := none
    text := text }

/-- A summarization outcome that fails on the text t1 and summarizes t2. -/
def ex_summarize : String → Option String :=
  fun t => if t = "t2" then some "s2" else none

/-- An embedding outcome mapping the summary s2 to the vector [2] and any
other text to [9]. -/
def ex_embed : List String → Except String (List (List ℚ)) :=
  fun ts => Except.ok (ts.map fun t => if t = "s2" then [2] else [9])

/-- A stored row whose embedding is the zero vector [0]. -/
def row_a : Row := { reference := "a", text := "ta", embedding := BlobData.decoded [0] }

/-- A stored row whose embedding is the vector [1]. -/
def row_b : Row := { reference := "b", text := "tb", embedding := BlobData.decoded [1] }

/-- A stored row whose embedding blob fails to decode. -/
def row_bad : Row := { reference := "m", text := "tm", embedding := BlobData.malformed }

/-- Claim C1: the pipeline is claimed to pair each surviving passage with
the embedding of that same passage's summary. In the code,
store_paragraph_records zips the UNFILTERED paragraph list with the
embeddings of only the surviving summaries, so when passage r1's
summarization fails and r2's succeeds, the single stored record carries
r1's reference and text together with the embedding [2] of r2's summary,
and the surviving passage r2 is not stored at all. -/
theorem c1_zip_misalignment :
    create_paragraphs_records ex_summarize ex_embed (fun _ => true)
        [mk_page "r1" "t1", mk_page "r2" "t2"] [] =
      ([{ reference := "r1", text := "t1", embedding := BlobData.decoded [2] }],
       Except.ok 2) := by
  simp [create_paragraphs_records, store_paragraph_records, insert_rows,
    ex_summarize, ex_embed, mk_page, Page.to_paragraph]

/-- Claim C2: the results are claimed to sort non-increasing with NaN last
and never panic. In the code the sort comparator is
`b.similarity.partial_cmp(&a.similarity).unwrap()`; a record with the zero
vector [0] has NaN similarity, partial_cmp on NaN is None, and unwrap
panics, so a store of two records one of which is zero-norm makes search
panic instead of sorting NaN last. -/
theorem c2_nan_sort_panics :
    get_similar_paragraphs "q" (Except.ok [[1]]) [row_a, row_b] =
      Outcome.panicked "called Option::unwrap() on a None value" := by
  norm_num [get_similar_paragraphs, get_compare_set, collect_results,
    row_try_into_record, row_a, row_b, cosine_similarity, norm_sq, dot_product,
    sort_by_unwrap, insert_sorted, partial_cmp, cmpQ, cmp_sqrt_ratio]

/-- Claim C3: embed_one is claimed to fail with a typed
EmbeddingProviderError when the provider succeeds but returns zero
vectors. The code runs `er.embeddings.get(0).expect(...)`, so an Ok result
carrying an empty vector list makes the handler panic instead of returning
a typed error. -/
theorem c3_empty_embeddings_panics :
    get_similar_paragraphs "feline pets" (Except.ok []) [] =
      Outcome.panicked "Embeddings results should always be populated" := by
  simp [get_similar_paragraphs, get_compare_set, collect_results]

/-- Claim C4 counterexample: the full-table scan is claimed to still yield
the successfully decoded records when one row's blob fails to decode. With
the well-formed rows row_b and row_a around the malformed row row_bad,
get_compare_set returns an error and yields no records at all: collect
into Result aborts the scan at the first failing row. -/
theorem c4_counterexample :
    get_compare_set [row_b, row_bad, row_a] =
      Except.error "invalid type: null, expected a sequence" := by
  simp [get_compare_set, collect_results, row_try_into_record,
    row_a, row_b, row_bad]

/-- Claim C4 (amended): a stored row whose embedding blob fails to decode
aborts the entire full-table scan — whenever some row of the table is
malformed, get_compare_set returns an error rather than the decoded
sibling records. -/
theorem c4_scan_aborts (rows : List Row)
    (h : ∃ r ∈ rows, r.embedding = BlobData.malformed) :
    ∃ e, get_compare_set rows = Except.error e := by
  induction rows with
  | nil => simp at h
  | cons r rest ih =>
    rcases h with ⟨x, hx, hmal⟩
    rcases List.mem_cons.mp hx with rfl | hx2
    · exact ⟨"invalid type: null, expected a sequence",
        by simp [get_compare_set, collect_results, row_try_into_record, hmal]⟩
    · cases hemb : r.embedding with
      | malformed =>
        exact ⟨"invalid type: null, expected a sequence",
          by simp [get_compare_set, collect_results, row_try_into_record, hemb]⟩
      | decoded v =>
        rcases ih ⟨x, hx2, hmal⟩ with ⟨e, he⟩
        refine ⟨e, ?_⟩
        simp only [get_compare_set, collect_results, row_try_into_record, hemb]
        rw [show collect_results row_try_into_record rest = Except.error e from he]

/-- Witness for c4_scan_aborts at a concrete two-row table. -/
theorem c4_scan_aborts_witness :
    ∃ e, get_compare_set [row_b, row_bad] = Except.error e :=
  c4_scan_aborts [row_b, row_bad] ⟨row_bad, by simp, by simp [row_bad]⟩

/-- A stored row with reference r1, used by the deletion claims. -/
def row_r1 : Row := { reference := "r1", text := "t", embedding := BlobData.decoded [1] }

/-- Claim C5 counterexample: delete is claimed to return true when a
matching row existed and false when the reference was unknown. The handler
answers with the very same response — 200 OK with an empty body — whether
the store holds a matching row or is empty, and a repeated delete of the
same reference again answers 200 OK: no boolean (and no distinction at
all) is ever reported. -/
theorem c5_counterexample :
    (delete_paragraph_record (some "r1") [row_r1]).2 =
      (delete_paragraph_record (some "r1") []).2 ∧
    (delete_paragraph_record (some "r1") []).2 = Status.ok ∧
    (delete_paragraph_record (some "r1")
        (delete_paragraph_record (some "r1") [row_r1]).1).2 = Status.ok := by
  simp [delete_paragraph_record]

/-- Claim C5 (amended): deleting never fails and never reports whether a
row existed: for every store and reference, the handler removes the
matching rows, discards the statement's result, and answers 200 OK — also
on a repeated delete of the same reference. -/
theorem c5_delete_always_ok (store : List Row) (reference : String) :
    (delete_paragraph_record (some reference) store).2 = Status.ok := by
  rfl

/-- Claim C6 counterexample: comparing vectors of unequal length is
claimed to fail fast with an error. cosine_similarity cannot even signal
an error — on the mismatched vectors [3, 4] and [5, 0, 12] it silently
computes the value 15 / √4225 (the dot product truncated to the common
prefix, each norm over its full vector). -/
theorem c6_counterexample :
    cosine_similarity [3, 4] [5, 0, 12] = Flt.val 15 4225 := by
  norm_num [cosine_similarity, norm_sq, dot_product]

/-- Zipping is unchanged by extending the right list when the left list is
at most as long. -/
theorem zip_append_of_le {α β : Type} (l1 : List α) (l2 extra : List β)
    (h : l1.length ≤ l2.length) : l1.zip (l2 ++ extra) = l1.zip l2 := by
  induction l1 generalizing l2 with
  | nil => simp
  | cons a l ih =>
    cases l2 with
    | nil => simp at h
    | cons b l2 => simp [List.zip_cons_cons, ih l2 (by simpa using h)]

/-- Claim C6 (amended): there is no length check anywhere — for vectors of
unequal length (vec2 extended by any extra tail), cosine_similarity still
produces a similarity value: the dot product silently ignores the tail
beyond vec1's length while the norms use the full vectors, and the result
is the value dot/√(‖vec1‖²·‖vec2 ++ extra‖²) whenever neither norm is
zero, never an error. -/
theorem c6_no_length_check (vec1 vec2 extra : List ℚ)
    (hlen : vec1.length ≤ vec2.length)
    (hnz : norm_sq vec1 * norm_sq (vec2 ++ extra) ≠ 0) :
    dot_product vec1 (vec2 ++ extra) = dot_product vec1 vec2 ∧
    cosine_similarity vec1 (vec2 ++ extra) =
      Flt.val (dot_product vec1 vec2)
        (norm_sq vec1 * norm_sq (vec2 ++ extra)) := by
  have hdot : dot_product vec1 (vec2 ++ extra) = dot_product vec1 vec2 := by
    simp [dot_product, zip_append_of_le vec1 vec2 extra hlen]
  exact ⟨hdot, by simp [cosine_similarity, hnz, hdot]⟩

/-- Witness for c6_no_length_check: the one-entry vector [1] against the
two-entry vector [1] ++ [2]. -/
theorem c6_no_length_check_witness :
    dot_product [1] ([1] ++ [2]) = dot_product [1] [1] ∧
    cosine_similarity [1] ([1] ++ [2]) =
      Flt.val (dot_product [1] [1]) (norm_sq [1] * norm_sq ([1] ++ [2])) :=
  c6_no_length_check [1] [1] [2] (by simp)
    (by norm_num [norm_sq])

/-- A pair at position i of the zipped list whose INSERT succeeds produces
its row in the insert loop's output, whatever the other statements'
outcomes: a failed INSERT is skipped, never aborting its siblings. -/
theorem insert_rows_mem (insert_ok : Nat → Bool) (n : Nat)
    (l : List (Paragraph × List ℚ)) (i : Nat) (p : Paragraph) (e : List ℚ)
    (hget : l.get? i = some (p, e)) (hok : insert_ok (n + i) = true) :
    ({ reference := p.reference, text := p.text,
       embedding := BlobData.decoded e } : Row) ∈ insert_rows insert_ok n l := by
  induction l generalizing n i with
  | nil => simp at hget
  | cons hd tl ih =>
    obtain ⟨ph, eh⟩ := hd
    cases i with
    | zero =>
      have h1 : ph = p ∧ eh = e := by
        have := hget
        simp [List.get?] at this
        exact ⟨this.1, this.2⟩
      obtain ⟨rfl, rfl⟩ := h1
      rw [Nat.add_zero] at hok
      simp [insert_rows, hok]
    | succ j =>
      have hget2 : tl.get? j = some (p, e) := by simpa [List.get?] using hget
      have hok2 : insert_ok (n + 1 + j) = true := by
        have harith : n + 1 + j = n + (j + 1) := by omega
        rw [harith]; exact hok
      by_cases hc : insert_ok n = true
      · simp only [insert_rows, hc, if_true]
        exact List.mem_cons_of_mem _ (ih (n + 1) j hget2 hok2)
      · simp only [insert_rows, hc, if_false, Bool.false_eq_true]
        exact ih (n + 1) j hget2 hok2

/-- Claim C7: when the batch embedding call succeeds, ingest reports
exactly the number of passages originally submitted — len(pages) — for
EVERY summarization outcome and EVERY pattern of per-record insert
failures (the summarize and insert_ok parameters are unconstrained, so
this covers the runs where summarization drops every passage, leaving the
zip empty, and the runs where every INSERT fails); moreover a failed
INSERT does not abort its siblings: any record at a position of the zipped
list whose own INSERT succeeded is stored. -/
theorem c7_submitted_count (summarize : String → Option String)
    (embed : List String → Except String (List (List ℚ)))
    (insert_ok : Nat → Bool) (pages : List Page) (store : List Row)
    (embs : List (List ℚ))
    (hembed : embed ((pages.map Page.to_paragraph).filterMap fun x =>
        summarize x.text) = Except.ok embs) :
    (create_paragraphs_records summarize embed insert_ok pages store).2 =
      Except.ok pages.length ∧
    ∀ i p e, ((pages.map Page.to_paragraph).zip embs).get? i = some (p, e) →
      insert_ok i = true →
      ({ reference := p.reference, text := p.text,
         embedding := BlobData.decoded e } : Row) ∈
        (create_paragraphs_records summarize embed insert_ok pages store).1 := by
  constructor
  · simp only [create_paragraphs_records]
    rw [hembed]
    simp [store_paragraph_records]
  · intro i p e hget hok
    simp only [create_paragraphs_records]
    rw [hembed]
    simp only [store_paragraph_records, List.mem_append]
    exact Or.inr (insert_rows_mem insert_ok 0 _ i p e hget
      (by simpa using hok))

/-- A summarization outcome that succeeds on every text, echoing it. -/
def ex_summ_id : String → Option String := fun t => some t

/-- An embedding outcome mapping every text to the vector [1]. -/
def ex_embed_ones : List String → Except String (List (List ℚ)) :=
  fun ts => Except.ok (ts.map fun _ => [1])

/-- An insert outcome where the first INSERT fails and the rest succeed. -/
def ex_insert_skip0 : Nat → Bool := fun i => i != 0

/-- Two submitted pages. -/
def ex_pages : List Page := [mk_page "r1" "t1", mk_page "r2" "t2"]

/-- Witness for c7_submitted_count: two pages, the first INSERT fails, yet
the reported count is 2 and the second page's record is stored. -/
theorem c7_witness :
    (create_paragraphs_records ex_summ_id ex_embed_ones ex_insert_skip0
        ex_pages []).2 = Except.ok ex_pages.length ∧
    ({ reference := "r2", text := "t2",
       embedding := BlobData.decoded [1] } : Row) ∈
      (create_paragraphs_records ex_summ_id ex_embed_ones ex_insert_skip0
        ex_pages []).1 :=
  ⟨(c7_submitted_count ex_summ_id ex_embed_ones ex_insert_skip0 ex_pages []
      [[1], [1]] rfl).1,
   (c7_submitted_count ex_summ_id ex_embed_ones ex_insert_skip0 ex_pages []
      [[1], [1]] rfl).2 1 { reference := "r2", text := "t2" } [1] rfl rfl⟩

/-- Claim C8: a failed batch embedding call aborts the whole ingestion
before anything touches the store — the error propagates with the
question-mark operator ahead of store_paragraph_records, so the call
surfaces the provider error and the store is exactly as before. -/
theorem c8_embed_failure_aborts (summarize : String → Option String)
    (embed : List String → Except String (List (List ℚ)))
    (insert_ok : Nat → Bool) (pages : List Page) (store : List Row)
    (e : String)
    (hembed : embed ((pages.map Page.to_paragraph).filterMap fun x =>
        summarize x.text) = Except.error e) :
    create_paragraphs_records summarize embed insert_ok pages store =
      (store, Except.error e) := by
  simp only [create_paragraphs_records]
  rw [hembed]

/-- An embedding outcome where the provider call fails. -/
def ex_embed_fail : List String → Except String (List (List ℚ)) :=
  fun _ => Except.error "Failed to generate embeddings when calling Spin llm"

/-- Witness for c8_embed_failure_aborts: one page against a non-empty
store; the store is unchanged and the error is surfaced. -/
theorem c8_witness :
    create_paragraphs_records ex_summ_id ex_embed_fail (fun _ => true)
        [mk_page "r1" "t1"] [row_b] =
      ([row_b],
       Except.error "Failed to generate embeddings when calling Spin llm") :=
  c8_embed_failure_aborts ex_summ_id ex_embed_fail (fun _ => true)
    [mk_page "r1" "t1"] [row_b]
    "Failed to generate embeddings when calling Spin llm" rfl

/-- Listing all paragraphs never fails on rows of the table (their
reference and text columns are strings): it returns exactly the
(reference, text) projection of the rows, in order. -/
theorem get_paragraphs_all_eq (rows : List Row) :
    get_paragraphs_all rows =
      Except.ok (rows.map fun r =>
        { reference := r.reference, text := r.text : Paragraph }) := by
  induction rows with
  | nil => rfl
  | cons r rest ih =>
    simp only [get_paragraphs_all] at ih
    simp [get_paragraphs_all, collect_results, row_try_into_paragraph, ih]

/-- Claim C9: round-trip — ingesting a single page whose summarization
succeeds (with summary s), whose embedding succeeds (vector v) and whose
INSERT succeeds appends exactly one record holding the page's url as
reference and the ORIGINAL page text (never the summary s), with only the
embedding derived from the summary; list_all then yields that
(reference, text) pair verbatim. -/
theorem c9_round_trip (summarize : String → Option String)
    (embed : List String → Except String (List (List ℚ)))
    (insert_ok : Nat → Bool) (page : Page) (store : List Row)
    (s : String) (v : List ℚ)
    (hsum : summarize page.text = some s)
    (hembed : embed [s] = Except.ok [v])
    (hins : insert_ok 0 = true) :
    (create_paragraphs_records summarize embed insert_ok [page] store).1 =
      store ++ [{ reference := page.url, text := page.text,
                  embedding := BlobData.decoded v }] ∧
    get_paragraphs_all
        (create_paragraphs_records summarize embed insert_ok [page] store).1 =
      Except.ok ((store.map fun r =>
          { reference := r.reference, text := r.text : Paragraph }) ++
        [{ reference := page.url, text := page.text }]) := by
  have h1 : (create_paragraphs_records summarize embed insert_ok
      [page] store).1 =
      store ++ [{ reference := page.url, text := page.text,
                  embedding := BlobData.decoded v }] := by
    have hlist : List.filterMap (fun e => summarize e.text)
        (List.map Page.to_paragraph [page]) = [s] := by
      simp [Page.to_paragraph, hsum]
    simp only [create_paragraphs_records]
    rw [hlist, hembed]
    simp [store_paragraph_records, insert_rows, hins, Page.to_paragraph]
  refine ⟨h1, ?_⟩
  rw [h1, get_paragraphs_all_eq]
  simp

/-- The page of the spec's round-trip scenario. -/
def ex_page_hello : Page := mk_page "r1" "hello world"

/-- A summarization outcome producing a fixed short summary. -/
def ex_summ_const : String → Option String := fun _ => some "a short summary"

/-- An embedding outcome mapping every text to the vector [1, 2]. -/
def ex_embed_pair : List String → Except String (List (List ℚ)) :=
  fun ts => Except.ok (ts.map fun _ => [1, 2])

/-- Witness for c9_round_trip at the spec's example page r1/hello world. -/
theorem c9_witness :
    (create_paragraphs_records ex_summ_const ex_embed_pair (fun _ => true)
        [ex_page_hello] []).1 =
      [{ reference := "r1", text := "hello world",
         embedding := BlobData.decoded [1, 2] }] ∧
    get_paragraphs_all
        (create_paragraphs_records ex_summ_const ex_embed_pair (fun _ => true)
          [ex_page_hello] []).1 =
      Except.ok [{ reference := "r1", text := "hello world" }] :=
  c9_round_trip ex_summ_const ex_embed_pair (fun _ => true) ex_page_hello []
    "a short summary" [1, 2] rfl rfl rfl

/-- Claim C10: DELETE FROM paragraphs WHERE reference = (?) removes every
row whose reference equals the given string — even several rows produced
by repeated ingests of one reference — and keeps exactly the rows whose
reference differs: a row survives the delete iff it was present and its
reference is different. -/
theorem c10_delete_all_matching (store : List Row) (r : String) (row : Row) :
    row ∈ (delete_paragraph_record (some r) store).1 ↔
      row ∈ store ∧ row.reference ≠ r := by
  simp [delete_paragraph_record, List.mem_filter]

/-- Witness for c10_delete_all_matching: deleting reference a keeps the
row with reference b. -/
theorem c10_witness :
    row_b ∈ (delete_paragraph_record (some "a") [row_a, row_b]).1 :=
  (c10_delete_all_matching [row_a, row_b] "a" row_b).mpr
    ⟨by simp, by simp [row_b]⟩

end Smartbeeding
